import Mathlib

/-!
Shallow embedding of the `ke` terminal text editor (`src/main.rs`).

A Rust `String` is modelled as a `List Char`.  Byte-oriented string
operations (`String::len`, `str::split_at`, `String::remove`) are modelled
through explicit UTF-8 byte sizes (`Char.utf8Size`), while character-oriented
ones (`chars().count()`, `char_indices().nth`) work on list positions.
Operations that can panic (out-of-range `Vec` indexing, failed `assert!`,
splitting a string inside a multi-byte character) are `Option`-valued, with
`none` standing for the panic.  Terminal drawing (`redraw`) only writes to
the screen and never changes editor state, so it is modelled, where relevant,
as the `Bool` "a redraw happened" flag the handlers produce.
-/

/-- Mirrors `struct Point { x: usize, y: usize }` (main.rs 17-21). -/
structure Point where
  x : Nat
  y : Nat
deriving DecidableEq

/-- Mirrors `struct EditBuffer { lines: Vec<String>, file_path: String }`
(main.rs 23-26). -/
structure EditBuffer where
  lines : List (List Char)
  filePath : List Char
deriving DecidableEq

/-- Mirrors `struct Rect { pos: Point, size: Point }` (main.rs 65-68). -/
structure Rect where
  pos : Point
  size : Point
deriving DecidableEq

/-- Mirrors `struct Editor { exit, view, buffer, cursor }` (main.rs 83-88). -/
structure Editor where
  exit : Bool
  view : Rect
  buffer : EditBuffer
  cursor : Point
deriving DecidableEq

/-- `fn clamp<T: Ord>(v, min, max) -> T { max(min, min(max, v)) }`
(main.rs 79-81), instantiated at `usize`. -/
def clampN (v lo hi : Nat) : Nat := max lo (min hi v)

/-- The same `clamp` instantiated at `i32`, as used by `offset_cursor`. -/
def clampI (v lo hi : Int) : Int := max lo (min hi v)

/-- Rust `str::chars().count()`: the character count of a line. -/
def charCount (l : List Char) : Nat := l.length

/-- Rust `String::len()`: the UTF-8 byte length of a line. -/
def byteLen (l : List Char) : Nat := (l.map Char.utf8Size).sum

/-- Rust `str::split_at(n)`: splits a string at byte offset `n`.  `none`
models the panic raised when `n` is past the end of the string or is not a
character boundary. -/
def splitAtByte : Nat → List Char → Option (List Char × List Char)
  | 0, l => some ([], l)
  | _ + 1, [] => none
  | n + 1, c :: cs =>
    if Char.utf8Size c ≤ n + 1 then
      (splitAtByte (n + 1 - Char.utf8Size c) cs).map (fun p => (c :: p.1, p.2))
    else none

/-- Rust `String::remove(i)` (ignoring its returned character): removes the
character starting at byte index `i`.  `none` models the panic raised when
`i` is out of bounds or is not a character boundary. -/
def removeByte : Nat → List Char → Option (List Char)
  | _, [] => none
  | 0, _ :: cs => some cs
  | n + 1, c :: cs =>
    if Char.utf8Size c ≤ n + 1 then
      (removeByte (n + 1 - Char.utf8Size c) cs).map (fun l => c :: l)
    else none

/-- The `char_indices().nth(x)` / `insert` / `push` logic of `insert_char`
(main.rs 163-170): insert before the `n`-th character, appending when the
line has at most `n` characters (the `idx.is_none()` branch). -/
def insertAt (n : Nat) (ch : Char) (l : List Char) : List Char :=
  l.take n ++ ch :: l.drop n

/-- Rust `str::split('\n')` as used by `load` (main.rs 44): a literal split
on the newline character; an empty input yields one empty piece and a
trailing newline yields a trailing empty piece. -/
def splitNl : List Char → List (List Char)
  | [] => [[]]
  | c :: cs =>
    if c = '\n' then [] :: splitNl cs
    else
      match splitNl cs with
      | [] => [[c]]
      | p :: rest => (c :: p) :: rest

/-- `EditBuffer::num_lines` (main.rs 56-58). -/
def EditBuffer.numLines (b : EditBuffer) : Nat := b.lines.length

/-- `EditBuffer::is_empty` (main.rs 60-62): `self.lines.len() == 0`. -/
def EditBuffer.isEmpty (b : EditBuffer) : Bool := b.lines.length == 0

/-- `EditBuffer::load` (main.rs 35-54) combined with its call in `main`
(main.rs 413-416).  File-system interaction is abstracted into the argument:
`none` models `File::open` returning `Err`, `some none` a successful open
followed by `read_to_string` failing, and `some (some text)` a successful
read of `text`.  The first component is the buffer's line vector after the
call (`load` clears it before anything else, so prior content never
survives).  The second component mirrors the `Result` that reaches `main`:
an open error is only printed (`eprintln`) and the function still returns
`Ok(())`, so the editor keeps running with an empty buffer; a
`read_to_string` error is propagated by the `?` operator, and `main`'s own
`?` then aborts the process before `run_loop` starts. -/
def loadResult (file : Option (Option (List Char))) : List (List Char) × Except Unit Unit :=
  match file with
  | none => ([], Except.ok ())
  | some none => ([], Except.error ())
  | some (some text) => (splitNl text, Except.ok ())

/-- The clamping half of `Editor::set_cursor` (main.rs 101-118): the target
cursor position computed from the requested `(x, y)`.  The index
`lines[new_y]` of the source is in range because `new_y` was just clamped to
`[0, num_lines - 1]` in the non-empty branch, so `getD` is faithful. -/
def cursorTarget (b : EditBuffer) (x y : Nat) : Point :=
  let maxY := if b.isEmpty then 0 else b.numLines - 1
  let newY := clampN y 0 maxY
  let lineMax := if b.isEmpty then 0 else charCount (b.lines.getD newY [])
  let newX := clampN x 0 lineMax
  ⟨newX, newY⟩

/-- One axis of the scroll adjustment of `set_cursor` (main.rs 126-138):
origin coordinate `p`, window extent `s`, cursor coordinate `c`. -/
def scrollPos (p s c : Nat) : Nat :=
  if c > p + s - 1 then c - s + 1
  else if c < p then c
  else p

/-- `Editor::set_cursor` (main.rs 100-140).  The `Bool` is the
`Ok(false)`/`Ok(true)` "redraw needed" result; the early return at
main.rs 120-122 leaves the whole state untouched. -/
def Editor.setCursor (e : Editor) (x y : Nat) : Editor × Bool :=
  let newCurs := cursorTarget e.buffer x y
  if e.cursor = newCurs then (e, false)
  else
    ({ e with
        cursor := newCurs,
        view := { e.view with
          pos := ⟨scrollPos e.view.pos.x e.view.size.x newCurs.x,
                  scrollPos e.view.pos.y e.view.size.y newCurs.y⟩ } }, true)

/-- The clamped target computed by `offset_cursor` (main.rs 143-153) before
it delegates to `set_cursor`; `i32` arithmetic is modelled on `ℤ` and the
final `as usize` casts by `Int.toNat` (both clamped values are
non-negative). -/
def offsetTarget (e : Editor) (dx dy : Int) : Nat × Nat :=
  let newY := clampI ((e.cursor.y : Int) + dy) 0 ((e.buffer.numLines : Int) - 1)
  let lineMax := if e.buffer.isEmpty then 0 else charCount (e.buffer.lines.getD newY.toNat [])
  let newX := clampI ((e.cursor.x : Int) + dx) 0 (lineMax : Int)
  (newX.toNat, newY.toNat)

/-- `Editor::offset_cursor` (main.rs 142-155). -/
def Editor.offsetCursor (e : Editor) (dx dy : Int) : Editor × Bool :=
  e.setCursor (offsetTarget e dx dy).1 (offsetTarget e dx dy).2

/-- `Editor::insert_char` (main.rs 157-174).  `none` models the `assert!`
at main.rs 161 failing, i.e. a non-empty buffer with `cursor.y` out of
range.  The unconditional `redraw` at main.rs 173 does not change editor
state and is omitted. -/
def Editor.insertChar (e : Editor) (ch : Char) : Option Editor :=
  if e.buffer.lines = [] then
    some { e with
      buffer := { e.buffer with lines := [[ch]] },
      cursor := { e.cursor with x := e.cursor.x + 1 } }
  else if e.cursor.y < e.buffer.lines.length then
    some { e with
      buffer := { e.buffer with
        lines := e.buffer.lines.set e.cursor.y
          (insertAt e.cursor.x ch (e.buffer.lines.getD e.cursor.y [])) },
      cursor := { e.cursor with x := e.cursor.x + 1 } }
  else none

/-- `Editor::key_enter` (main.rs 176-195).  `none` models a panic: either
the index `lines[cursor.y]` being out of range, or `line.split_at(cursor.x)`
hitting a byte offset that is not a character boundary.  In the empty-buffer
branch the cloned line is the empty string. -/
def Editor.keyEnter (e : Editor) : Option Editor :=
  if e.buffer.lines = [] then
    match splitAtByte e.cursor.x [] with
    | none => none
    | some lr =>
      some { e with
        buffer := { e.buffer with lines := [lr.1, lr.2] },
        cursor := ⟨0, e.cursor.y + 1⟩ }
  else if e.cursor.y < e.buffer.lines.length then
    match splitAtByte e.cursor.x (e.buffer.lines.getD e.cursor.y []) with
    | none => none
    | some lr =>
      some { e with
        buffer := { e.buffer with
          lines := (e.buffer.lines.set e.cursor.y lr.1).insertIdx (e.cursor.y + 1) lr.2 },
        cursor := ⟨0, e.cursor.y + 1⟩ }
  else none

/-- `Editor::key_backspace` (main.rs 197-217).  The `Bool` records whether
the final `redraw` at main.rs 216 is reached (`false` exactly for the early
return at (0,0), main.rs 198-200).  `none` models a panic: `lines[cursor.y]`
out of range, or `String::remove` applied at a byte index that is out of
bounds or not a character boundary.  In the merge branch `cursor.x` is set
to `prev_line.len()`, the BYTE length of the former previous line
(main.rs 206, 210). -/
def Editor.keyBackspace (e : Editor) : Option (Editor × Bool) :=
  if e.cursor.x = 0 ∧ e.cursor.y = 0 then some (e, false)
  else if e.cursor.x = 0 then
    if e.cursor.y < e.buffer.lines.length then
      some ({ e with
        buffer := { e.buffer with
          lines := List.eraseIdx
            (e.buffer.lines.set (e.cursor.y - 1)
              (e.buffer.lines.getD (e.cursor.y - 1) [] ++ e.buffer.lines.getD e.cursor.y []))
            e.cursor.y },
        cursor := ⟨byteLen (e.buffer.lines.getD (e.cursor.y - 1) []), e.cursor.y - 1⟩ }, true)
    else none
  else
    if e.cursor.y < e.buffer.lines.length then
      match removeByte (e.cursor.x - 1) (e.buffer.lines.getD e.cursor.y []) with
      | none => none
      | some line2 =>
        some ({ e with
          buffer := { e.buffer with lines := e.buffer.lines.set e.cursor.y line2 },
          cursor := { e.cursor with x := e.cursor.x - 1 } }, true)
    else none

/-- The `KeyCode::End` arm of `Editor::on_key_event` (main.rs 261-268): it
reads `self.buffer.lines[self.cursor.y].len()` — an unguarded `Vec` index
(and a byte length) — and passes it to `set_cursor`.  `none` models the
out-of-bounds panic of that index. -/
def Editor.keyEnd (e : Editor) : Option (Editor × Bool) :=
  if e.cursor.y < e.buffer.lines.length then
    some (e.setCursor (byteLen (e.buffer.lines.getD e.cursor.y [])) e.cursor.y)
  else none

/-- `Editor::new` (main.rs 91-98) with `EditBuffer::new` and `Rect::new`:
the initial editor state, before any resize event or file load. -/
def Editor.new : Editor := ⟨false, ⟨⟨0, 0⟩, ⟨0, 0⟩⟩, ⟨[], []⟩, ⟨0, 0⟩⟩

/-- The viewport invariant of the spec (section 3): the cursor lies inside
the viewport's visible rectangle. -/
def inView (v : Rect) (c : Point) : Prop :=
  v.pos.y ≤ c.y ∧ c.y < v.pos.y + v.size.y ∧ v.pos.x ≤ c.x ∧ c.x < v.pos.x + v.size.x

instance instInViewDecidable (v : Rect) (c : Point) : Decidable (inView v c) := by
  unfold inView
  infer_instance

/-! Concrete editor states used by witnesses and counterexamples. -/

/-- Buffer `["ab"]`, viewport origin `(0,0)` of size `2×1`, cursor `(1,0)`
(inside the viewport): the state reached by loading "ab", resizing to a
2-column 1-row terminal and pressing Right once. -/
def eIns : Editor := ⟨false, ⟨⟨0, 0⟩, ⟨2, 1⟩⟩, ⟨[['a', 'b']], []⟩, ⟨1, 0⟩⟩

/-- The state `insert_char('x')` produces from `eIns`. -/
def eInsAfter : Editor := ⟨false, ⟨⟨0, 0⟩, ⟨2, 1⟩⟩, ⟨[['a', 'x', 'b']], []⟩, ⟨2, 0⟩⟩

/-- Buffer `["ab"]`, viewport `2×1` at the origin, cursor at the origin. -/
def eView : Editor := ⟨false, ⟨⟨0, 0⟩, ⟨2, 1⟩⟩, ⟨[['a', 'b']], []⟩, ⟨0, 0⟩⟩

/-- A non-empty buffer whose cursor row 5 is out of range. -/
def eAssertBad : Editor := ⟨false, ⟨⟨0, 0⟩, ⟨0, 0⟩⟩, ⟨[['q']], []⟩, ⟨0, 5⟩⟩

/-- Single line `"é"` with the cursor at character column 1 — the position
`set_cursor(1, 0)` itself produces, since the line has one character. -/
def eAccent : Editor := ⟨false, ⟨⟨0, 0⟩, ⟨0, 0⟩⟩, ⟨[['é']], []⟩, ⟨1, 0⟩⟩

/-- Lines `["é", "a"]` with the cursor at `(0, 1)`. -/
def eAccentMerge : Editor := ⟨false, ⟨⟨0, 0⟩, ⟨0, 0⟩⟩, ⟨[['é'], ['a']], []⟩, ⟨0, 1⟩⟩

/-- Lines `["foo", "bar"]` with the cursor at `(0, 1)`. -/
def eFooBar : Editor := ⟨false, ⟨⟨0, 0⟩, ⟨0, 0⟩⟩, ⟨[['f', 'o', 'o'], ['b', 'a', 'r']], []⟩, ⟨0, 1⟩⟩

/-! Helper lemmas about `set_cursor`. -/

/-- `set_cursor` never modifies the buffer. -/
lemma setCursor_fst_buffer (e : Editor) (x y : Nat) :
    (e.setCursor x y).1.buffer = e.buffer := by
  simp only [Editor.setCursor]
  split
  · rfl
  · rfl

/-- After `set_cursor`, the cursor is exactly the clamped target. -/
lemma setCursor_fst_cursor (e : Editor) (x y : Nat) :
    (e.setCursor x y).1.cursor = cursorTarget e.buffer x y := by
  simp only [Editor.setCursor]
  split
  · next h => exact h
  · rfl

/-- `set_cursor` is a no-change call when the cursor already equals the
clamped target: the state is returned untouched with result `false`. -/
lemma setCursor_noop (e : Editor) (x y : Nat) (h : e.cursor = cursorTarget e.buffer x y) :
    e.setCursor x y = (e, false) := by
  simp only [Editor.setCursor]
  rw [if_pos h]

/-- Bounds of the clamped target: its row is at most `num_lines - 1`, its
column is at most the character count of the line at that row, and on an
empty buffer it is the origin. -/
lemma cursorTarget_bounds (b : EditBuffer) (x y : Nat) :
    (cursorTarget b x y).y ≤ b.numLines - 1 ∧
    (cursorTarget b x y).x ≤ charCount (b.lines.getD (cursorTarget b x y).y []) ∧
    (b.lines = [] → cursorTarget b x y = ⟨0, 0⟩) := by
  by_cases hb : b.lines = []
  · have hemp : b.isEmpty = true := by simp [EditBuffer.isEmpty, hb]
    have hx0 : clampN x 0 0 = 0 := by unfold clampN; omega
    have hy0 : clampN y 0 0 = 0 := by unfold clampN; omega
    have hx : cursorTarget b x y = ⟨0, 0⟩ := by
      simp [cursorTarget, hemp, hx0, hy0]
    rw [hx]
    exact ⟨Nat.zero_le _, Nat.zero_le _, fun _ => rfl⟩
  · have hne : b.isEmpty = false := by
      simp [EditBuffer.isEmpty, List.length_eq_zero, hb]
    simp only [cursorTarget, hne, EditBuffer.numLines, clampN, charCount, if_false,
      Bool.false_eq_true]
    refine ⟨by omega, by omega, fun hc => absurd hc hb⟩

/-- Each scroll axis brings the cursor coordinate inside
`[origin, origin + size)` whenever the size is positive. -/
lemma scrollPos_mem (p s c : Nat) (hs : 1 ≤ s) :
    scrollPos p s c ≤ c ∧ c < scrollPos p s c + s := by
  unfold scrollPos
  split
  · omega
  · split
    · omega
    · omega

/-- Removing index `i + 1` after overwriting index `i` keeps the prefix and
the tail and replaces the two middle elements by the written one. -/
lemma set_then_eraseIdx {α : Type} (l : List α) (i : Nat) (m : α) (h : i + 1 < l.length) :
    (l.set i m).eraseIdx (i + 1) = l.take i ++ m :: l.drop (i + 2) := by
  induction l generalizing i with
  | nil => simp at h
  | cons a t ih =>
    cases i with
    | zero =>
      cases t with
      | nil => simp at h
      | cons b t2 => rfl
    | succ j =>
      have ht : j + 1 < t.length := by simpa using h
      show a :: (t.set j m).eraseIdx (j + 1) = a :: (t.take j ++ m :: t.drop (j + 2))
      exact congrArg (fun z => a :: z) (ih j ht)

/-! Claim theorems. -/

/-- C1: for every buffer state and every `(col, row)` argument, after
`set_cursor` the cursor row lies in `[0, max 0 (line_count - 1)]` (the `Nat`
subtraction `numLines - 1` is that maximum) and the cursor column lies in
`[0, character count of the line at that row]`; on an empty buffer the
cursor is `(0, 0)`. -/
theorem setCursor_bounds (e : Editor) (x y : Nat) :
    (e.setCursor x y).1.cursor.y ≤ e.buffer.numLines - 1 ∧
    (e.setCursor x y).1.cursor.x ≤
      charCount (e.buffer.lines.getD (e.setCursor x y).1.cursor.y []) ∧
    (e.buffer.lines = [] → (e.setCursor x y).1.cursor = ⟨0, 0⟩) := by
  rw [setCursor_fst_cursor]
  exact cursorTarget_bounds e.buffer x y

/-- Witness for C1 at a concrete input: on the initial empty editor,
`set_cursor(7, 5)` leaves the cursor at the origin. -/
theorem setCursor_bounds_witness : (Editor.new.setCursor 7 5).1.cursor = ⟨0, 0⟩ :=
  (setCursor_bounds Editor.new 7 5).2.2 rfl

/-- C7: `set_cursor` is idempotent — calling it again with the same target
returns the state exactly as the first call left it (cursor, viewport and
all) and reports "no change" (`false`). -/
theorem setCursor_idempotent (e : Editor) (x y : Nat) :
    ((e.setCursor x y).1).setCursor x y = ((e.setCursor x y).1, false) := by
  apply setCursor_noop
  rw [setCursor_fst_buffer, setCursor_fst_cursor]

/-- C2 (amended): after `set_cursor` or `offset_cursor` completes on a
viewport of positive width and height, the cursor lies inside the viewport
rectangle, provided the cursor was inside the viewport before the call or
the call reported a change.  (The Enter/Backspace/character-insert handlers
move the cursor without adjusting the viewport and are excluded; see the
counterexample.) -/
theorem setCursor_keeps_cursor_in_view (e : Editor)
    (hw : 1 ≤ e.view.size.x) (hh : 1 ≤ e.view.size.y) :
    (∀ x y : Nat, inView e.view e.cursor ∨ (e.setCursor x y).2 = true →
      inView (e.setCursor x y).1.view (e.setCursor x y).1.cursor) ∧
    (∀ dx dy : Int, inView e.view e.cursor ∨ (e.offsetCursor dx dy).2 = true →
      inView (e.offsetCursor dx dy).1.view (e.offsetCursor dx dy).1.cursor) := by
  have main : ∀ x y : Nat, inView e.view e.cursor ∨ (e.setCursor x y).2 = true →
      inView (e.setCursor x y).1.view (e.setCursor x y).1.cursor := by
    intro x y h
    by_cases hc : e.cursor = cursorTarget e.buffer x y
    · rw [setCursor_noop e x y hc] at h ⊢
      rcases h with h | h
      · exact h
      · simp at h
    · have hres : e.setCursor x y =
          ({ e with
              cursor := cursorTarget e.buffer x y,
              view := { e.view with
                pos := ⟨scrollPos e.view.pos.x e.view.size.x (cursorTarget e.buffer x y).x,
                        scrollPos e.view.pos.y e.view.size.y (cursorTarget e.buffer x y).y⟩ } },
            true) := by
        simp only [Editor.setCursor]
        rw [if_neg hc]
      rw [hres]
      have h1 := scrollPos_mem e.view.pos.y e.view.size.y (cursorTarget e.buffer x y).y hh
      have h2 := scrollPos_mem e.view.pos.x e.view.size.x (cursorTarget e.buffer x y).x hw
      exact ⟨h1.1, h1.2, h2.1, h2.2⟩
  refine ⟨main, fun dx dy h => ?_⟩
  simp only [Editor.offsetCursor] at h ⊢
  exact main _ _ h

/-- Witness for C2 (amended) at a concrete input: on `eView` (2×1 viewport),
`set_cursor(5, 0)` keeps the cursor inside the viewport. -/
theorem setCursor_keeps_cursor_in_view_witness :
    inView (eView.setCursor 5 0).1.view (eView.setCursor 5 0).1.cursor :=
  (setCursor_keeps_cursor_in_view eView (by decide) (by decide)).1 5 0 (Or.inl (by decide))

/-- C2 counterexample: from a state whose cursor is inside the 2×1 viewport,
`insert_char('x')` (main.rs 157-174, which increments `cursor.x` without any
viewport adjustment) completes with the cursor outside the viewport
rectangle. -/
theorem insertChar_leaves_viewport :
    inView eIns.view eIns.cursor ∧
    eIns.insertChar 'x' = some eInsAfter ∧
    ¬ inView eInsAfter.view eInsAfter.cursor :=
  ⟨by decide, by decide, by decide⟩

/-- C3 (code bug): with the single line `"é"` and the cursor at character
column 1 — a valid split offset, equal to the line's character count —
`key_enter` panics: `split_at(1)` is a byte split and byte 1 lies inside the
two-byte UTF-8 encoding of `'é'`, so the split/merge round-trip is
impossible at this offset. -/
theorem keyEnter_multibyte_split_fails : eAccent.keyEnter = none := by decide

/-- C4 counterexample: `insert_char` on the empty initial buffer does not
fail any assertion; it silently creates a single one-character line. -/
theorem insertChar_empty_handled :
    Editor.new.insertChar 'x' = some ⟨false, ⟨⟨0, 0⟩, ⟨0, 0⟩⟩, ⟨[['x']], []⟩, ⟨1, 0⟩⟩ := by
  decide

/-- C4 (amended): `insert_char` on an empty buffer is silently handled (it
pushes a new line, main.rs 158-159); the fatal `assert!` (main.rs 161) fires
exactly when the buffer is non-empty and the cursor row is out of range. -/
theorem insertChar_assert_condition (ch : Char) (e : Editor) :
    (e.buffer.lines = [] → (e.insertChar ch).isSome = true) ∧
    (e.buffer.lines ≠ [] → e.buffer.lines.length ≤ e.cursor.y → e.insertChar ch = none) := by
  constructor
  · intro h
    simp [Editor.insertChar, h]
  · intro h1 h2
    simp only [Editor.insertChar]
    rw [if_neg h1, if_neg (by omega)]

/-- Witness for C4 (amended) at concrete inputs: the empty buffer is
handled, and a one-line buffer with cursor row 5 hits the assertion. -/
theorem insertChar_assert_condition_witness :
    (Editor.new.insertChar 'a').isSome = true ∧ eAssertBad.insertChar 'a' = none :=
  ⟨(insertChar_assert_condition 'a' Editor.new).1 rfl,
   (insertChar_assert_condition 'a' eAssertBad).2 (by decide) (by decide)⟩

/-- C5: the load operation splits the raw text literally on the newline
character: `"a\nb\nc"` yields the three lines `["a", "b", "c"]` and
`"a\nb\n"` yields `["a", "b", ""]` with the trailing empty line kept. -/
theorem load_splits_on_newline :
    (loadResult (some (some ['a', '\n', 'b', '\n', 'c']))).1 = [['a'], ['b'], ['c']] ∧
    (loadResult (some (some ['a', '\n', 'b', '\n']))).1 = [['a'], ['b'], []] :=
  ⟨rfl, rfl⟩

/-- C6 counterexample: on lines `["é", "a"]` with the cursor at `(0, 1)`,
Backspace places the cursor at column 2 — the UTF-8 byte length of `"é"`
(`prev_line.len()`, main.rs 206) — and not at its character length 1, so the
claim's "column equal to the character length" fails. -/
theorem keyBackspace_column_is_bytes_not_chars :
    (eAccentMerge.keyBackspace).map (fun p => p.1.cursor.x) = some 2 ∧
    charCount (eAccentMerge.buffer.lines.getD 0 []) = 1 :=
  ⟨rfl, rfl⟩

/-- C6 (amended): Backspace at column 0 of a valid row `>= 1` concatenates
the current line onto the previous one, removes the current line, issues a
redraw, and places the cursor on the previous row at a column equal to the
UTF-8 BYTE length of the former previous line (equal to its character
length for ASCII lines such as in the `["foo", "bar"]` scenario). -/
theorem keyBackspace_merges_previous (e : Editor) (h1 : e.cursor.x = 0)
    (h2 : 1 ≤ e.cursor.y) (h3 : e.cursor.y < e.buffer.lines.length) :
    e.keyBackspace = some
      ({ e with
        buffer := { e.buffer with
          lines := e.buffer.lines.take (e.cursor.y - 1) ++
            (e.buffer.lines.getD (e.cursor.y - 1) [] ++ e.buffer.lines.getD e.cursor.y []) ::
            e.buffer.lines.drop (e.cursor.y + 1) },
        cursor := ⟨byteLen (e.buffer.lines.getD (e.cursor.y - 1) []), e.cursor.y - 1⟩ }, true) := by
  obtain ⟨i, hi⟩ : ∃ i, e.cursor.y = i + 1 := ⟨e.cursor.y - 1, by omega⟩
  simp only [Editor.keyBackspace]
  rw [if_neg (by omega), if_pos h1, if_pos h3]
  rw [hi, Nat.add_sub_cancel]
  rw [set_then_eraseIdx e.buffer.lines i
    (e.buffer.lines.getD i [] ++ e.buffer.lines.getD (i + 1) []) (by omega)]

/-- Witness for C6 (amended): the spec scenario — Backspace at `(0, 1)` on
`["foo", "bar"]` yields the single line `"foobar"` with the cursor at
`(3, 0)`. -/
theorem keyBackspace_merges_previous_witness :
    eFooBar.keyBackspace = some
      (⟨false, ⟨⟨0, 0⟩, ⟨0, 0⟩⟩, ⟨[['f', 'o', 'o', 'b', 'a', 'r']], []⟩, ⟨3, 0⟩⟩, true) := by
  have h := keyBackspace_merges_previous eFooBar rfl (by decide) (by decide)
  exact h

/-- C8 counterexample: when the file opens but reading it fails
(`read_to_string` returns `Err`, e.g. the path is a directory), the `?` at
main.rs 43 propagates the error to `main`, whose own `?` aborts the process
before the run loop starts — the program does not continue editing. -/
theorem load_read_error_propagates : loadResult (some none) = ([], Except.error ()) := rfl

/-- C8 (amended): when the startup file cannot be OPENED, `load` prints the
error, leaves the buffer empty and returns `Ok`, so the editor keeps
running; only a failure while READING an already-open file aborts startup. -/
theorem load_open_error_recovers : loadResult none = ([], Except.ok ()) := rfl

/-- C9 (code bug): dispatching the End key in the initial editor state (no
file loaded, so the buffer is empty and the cursor is `(0, 0)`) evaluates
`self.buffer.lines[self.cursor.y]` on an empty vector — an out-of-bounds
index, i.e. a panic. -/
theorem keyEnd_empty_buffer_out_of_bounds : Editor.new.keyEnd = none := rfl

/-- C10: Backspace with the cursor at `(0, 0)` is a complete no-op: the
buffer, cursor and viewport are returned unchanged and no redraw is issued
(the early return at main.rs 198-200 precedes the `redraw` call). -/
theorem keyBackspace_origin_noop (e : Editor) (hx : e.cursor.x = 0) (hy : e.cursor.y = 0) :
    e.keyBackspace = some (e, false) := by
  simp only [Editor.keyBackspace]
  rw [if_pos ⟨hx, hy⟩]

/-- Witness for C10 at a concrete input: the initial editor state. -/
theorem keyBackspace_origin_noop_witness :
    Editor.new.keyBackspace = some (Editor.new, false) :=
  keyBackspace_origin_noop Editor.new rfl rfl
